import Mathlib

/-!
Verification of the 2D Navier-Stokes notebook solver
(`Navier_Stokes_Solver_2D.ipynb`).

The solver works on dense N x N grids of 64-bit floats (`jnp` arrays).  We
embed a grid as a total function `ℕ → ℕ → ℚ`: real arithmetic is modelled
exactly by rationals, `f i j` is the array entry `f[i, j]` (first index the
row, second the column, as in numpy), and only indices below the grid size
`n` are meaningful.  Every array-producing operation of the source is
translated to a function producing the corresponding entries; out-of-range
entries of a result are `0`, matching `jnp.zeros_like` initialisation where
one exists and being irrelevant otherwise (no in-range entry of any
operation below reads an out-of-range entry of its input).
-/

/-- A scalar quantity (velocity component or pressure) sampled on the grid.
The source represents it as an N x N `jnp` array. -/
abbrev ScalarField : Type := ℕ → ℕ → ℚ

/-- Source constant cell: `ELEMENT_LENGTH = 1 / (N_POINTS - 1)`, the distance
between consecutive grid points, here as a function of the grid size. -/
def ELEMENT_LENGTH (n : ℕ) : ℚ := 1 / ((n : ℚ) - 1)

/-- Source `d_dx`: zero everywhere except the interior slice `[1:-1, 1:-1]`,
which is set to `(f[1:-1, 2:] - f[1:-1, 0:-2]) / (2 * ELEMENT_LENGTH)`,
i.e. entry `(i, j)` of the interior reads `f i (j+1)` and `f i (j-1)`. -/
def d_dx (n : ℕ) (f : ScalarField) : ScalarField := fun i j =>
  if 1 ≤ i ∧ i + 1 < n ∧ 1 ≤ j ∧ j + 1 < n then
    (f i (j + 1) - f i (j - 1)) / (2 * ELEMENT_LENGTH n)
  else 0

/-- Source `d_dy`: interior slice set to
`(f[2:, 1:-1] - f[0:-2, 1:-1]) / (2 * ELEMENT_LENGTH)`. -/
def d_dy (n : ℕ) (f : ScalarField) : ScalarField := fun i j =>
  if 1 ≤ i ∧ i + 1 < n ∧ 1 ≤ j ∧ j + 1 < n then
    (f (i + 1) j - f (i - 1) j) / (2 * ELEMENT_LENGTH n)
  else 0

/-- Source `d2_dx2`: interior slice set to
`(f[1:-1, 2:] - 2 * f[1:-1, 1:-1] + f[1:-1, 0:-2]) / ELEMENT_LENGTH**2`. -/
def d2_dx2 (n : ℕ) (f : ScalarField) : ScalarField := fun i j =>
  if 1 ≤ i ∧ i + 1 < n ∧ 1 ≤ j ∧ j + 1 < n then
    (f i (j + 1) - 2 * f i j + f i (j - 1)) / (ELEMENT_LENGTH n ^ 2)
  else 0

/-- Source `d2_dy2`: interior slice set to
`(f[2:, 1:-1] - 2 * f[1:-1, 1:-1] + f[0:-2, 1:-1]) / ELEMENT_LENGTH**2`. -/
def d2_dy2 (n : ℕ) (f : ScalarField) : ScalarField := fun i j =>
  if 1 ≤ i ∧ i + 1 < n ∧ 1 ≤ j ∧ j + 1 < n then
    (f (i + 1) j - 2 * f i j + f (i - 1) j) / (ELEMENT_LENGTH n ^ 2)
  else 0

/-- Source `laplacian`: the array sum `d2_dx2(f) + d2_dy2(f)`, pointwise. -/
def laplacian (n : ℕ) (f : ScalarField) : ScalarField := fun i j =>
  d2_dx2 n f i j + d2_dy2 n f i j

/-- Source `u_intermediate`:
`u - dt * (u * d_dx(u) + v * d_dy(u)) + dt * VISCOSITY * laplacian(u)`,
all array operations pointwise (`jnp.multiply` is elementwise). -/
def u_intermediate (n : ℕ) (dt ν : ℚ) (u v : ScalarField) : ScalarField :=
  fun i j =>
    u i j - dt * (u i j * d_dx n u i j + v i j * d_dy n u i j)
      + dt * ν * laplacian n u i j

/-- Source `v_intermediate`:
`v - dt * (u * d_dx(v) + v * d_dy(v)) + dt * VISCOSITY * laplacian(v)`. -/
def v_intermediate (n : ℕ) (dt ν : ℚ) (u v : ScalarField) : ScalarField :=
  fun i j =>
    v i j - dt * (u i j * d_dx n v i j + v i j * d_dy n v i j)
      + dt * ν * laplacian n v i j

/-- Right-hand side of the pressure equation, computed once before the Jacobi
loop in source `p_update`: `rhs = DENSITY / dt * (d_dx(u) + d_dy(v))`. -/
def p_rhs (n : ℕ) (dt ρ : ℚ) (u v : ScalarField) : ScalarField := fun i j =>
  ρ / dt * (d_dx n u i j + d_dy n v i j)

/-- One iteration of the loop body of source `p_update`.  `p1` is the fresh
`p_next = jnp.zeros_like(p_prev)` with its interior slice set to
`0.25 * (p_prev[1:-1,2:] + p_prev[1:-1,0:-2] + p_prev[2:,1:-1]
+ p_prev[0:-2,1:-1] - ELEMENT_LENGTH**2 * rhs[1:-1,1:-1])`; the four
subsequent writes are, in source order, `p_next[:,-1] = p_next[:,-2]`,
`p_next[0,:] = p_next[1,:]`, `p_next[:,0] = p_next[:,1]`, and the source's
literal `p_next[-1,:] = p_next[-1,:]` (the last row is assigned to itself). -/
def p_sweep (n : ℕ) (rhs p_prev : ScalarField) : ScalarField :=
  let p1 : ScalarField := fun i j =>
    if 1 ≤ i ∧ i + 1 < n ∧ 1 ≤ j ∧ j + 1 < n then
      (0.25 : ℚ) * (p_prev i (j + 1) + p_prev i (j - 1) + p_prev (i + 1) j
        + p_prev (i - 1) j - ELEMENT_LENGTH n ^ 2 * rhs i j)
    else 0
  let p2 : ScalarField := fun i j => if j = n - 1 then p1 i (n - 2) else p1 i j
  let p3 : ScalarField := fun i j => if i = 0 then p2 1 j else p2 i j
  let p4 : ScalarField := fun i j => if j = 0 then p3 i 1 else p3 i j
  let p5 : ScalarField := fun i j => if i = n - 1 then p4 (n - 1) j else p4 i j
  p5

/-- The body of `for i in range(JACOBI_ITERATIONS)` in source `p_update`:
each pass recomputes `p_next` as a sweep of `p_prev`, discarding the
previous pass's `p_next` — the source never assigns `p_next` back to
`p_prev`, so the argument of this body is unused, exactly as in the code. -/
def p_loopBody (n : ℕ) (rhs p_prev : ScalarField) (_p_next : ScalarField) :
    ScalarField :=
  p_sweep n rhs p_prev

/-- Source `p_update` with the iteration count `K` (`JACOBI_ITERATIONS`) made
a parameter: compute `rhs` once, then run the loop body `K` times.  The
returned value is the last `p_next`; for `K = 0` the source would raise a
`NameError` (`p_next` is never bound), so we return `p_prev` as the start
value of the iteration — every claim about `p_update` assumes `1 ≤ K`. -/
def p_update (n K : ℕ) (dt ρ : ℚ) (u v p_prev : ScalarField) : ScalarField :=
  (p_loopBody n (p_rhs n dt ρ u v) p_prev)^[K] p_prev

/-- Modelled from the spec: the double-buffered Jacobi loop of spec 4.4,
in which sweep `k+1` is computed from the complete result of sweep `k`
(the source instead recomputes every sweep from the same `p_prev`).  Used
only to compare the source's `p_update` against the specified behaviour. -/
def p_update_iterated (n K : ℕ) (dt ρ : ℚ) (u v p_prev : ScalarField) :
    ScalarField :=
  (p_sweep n (p_rhs n dt ρ u v))^[K] p_prev

/-- Source `u_update`: `u - (dt / DENSITY) * d_dx(p)`, pointwise. -/
def u_update (n : ℕ) (dt ρ : ℚ) (u p : ScalarField) : ScalarField := fun i j =>
  u i j - dt / ρ * d_dx n p i j

/-- Source `v_update`: `v - (dt / DENSITY) * d_dy(p)`, pointwise. -/
def v_update (n : ℕ) (dt ρ : ℚ) (v p : ScalarField) : ScalarField := fun i j =>
  v i j - dt / ρ * d_dy n p i j

/-- The symmetric four-edge overwrite used by the source `iterator` for
`v_i`, `u_next` and `v_next`: in source order,
`f[0,:] = g[0,:]`, `f[:,0] = g[:,0]`, `f[:,-1] = g[:,-1]`,
`f[-1,:] = g[-1,:]`, each edge of `f` taken from the same edge of `g`. -/
def setEdges (n : ℕ) (g f : ScalarField) : ScalarField :=
  let f1 : ScalarField := fun i j => if i = 0 then g 0 j else f i j
  let f2 : ScalarField := fun i j => if j = 0 then g i 0 else f1 i j
  let f3 : ScalarField := fun i j => if j = n - 1 then g i (n - 1) else f2 i j
  let f4 : ScalarField := fun i j => if i = n - 1 then g (n - 1) j else f3 i j
  f4

/-- The four-edge overwrite the source `iterator` applies to `u_i` right
after the predictor.  Its last write is the source's literal
`u_i = u_i.at[-1, :].set(u_init[:, -1])`: the last ROW of `u_i` receives the
last COLUMN of `u_init` (entry `(n-1, j)` gets `u_init[j, n-1]`), unlike the
three other edges and unlike every other edge block in the source. -/
def setEdges_uStar (n : ℕ) (g f : ScalarField) : ScalarField :=
  let f1 : ScalarField := fun i j => if i = 0 then g 0 j else f i j
  let f2 : ScalarField := fun i j => if j = 0 then g i 0 else f1 i j
  let f3 : ScalarField := fun i j => if j = n - 1 then g i (n - 1) else f2 i j
  let f4 : ScalarField := fun i j => if i = n - 1 then g j (n - 1) else f3 i j
  f4

/-- The intermediate velocity `u_i` of the source `iterator`:
`u_intermediate(u_prev, v_prev)` followed by the post-predictor edge block
for `u` (the one whose last row is taken from `u_init`'s last column). -/
def u_star (n : ℕ) (dt ν : ℚ) (u_init u v : ScalarField) : ScalarField :=
  setEdges_uStar n u_init (u_intermediate n dt ν u v)

/-- The intermediate velocity `v_i` of the source `iterator`:
`v_intermediate(u_prev, v_prev)` followed by the symmetric edge block. -/
def v_star (n : ℕ) (dt ν : ℚ) (v_init u v : ScalarField) : ScalarField :=
  setEdges n v_init (v_intermediate n dt ν u v)

/-- Source `iterator`: predictor, post-predictor edge blocks,
`p_next = p_update(u_i, v_i, p_prev)`, corrector
`u_next = u_update(u_i, p_prev)` and `v_next = v_update(v_i, p_prev)`
(note: the source passes `p_prev`, not `p_next`, to the corrector), and the
final symmetric edge blocks on `u_next` and `v_next`.
Returns `(u_next, v_next, p_next)`. -/
def iterator (n K : ℕ) (dt ν ρ : ℚ) (u_init v_init : ScalarField)
    (u_prev v_prev p_prev : ScalarField) :
    ScalarField × ScalarField × ScalarField :=
  (setEdges n u_init (u_update n dt ρ (u_star n dt ν u_init u_prev v_prev) p_prev),
   setEdges n v_init (v_update n dt ρ (v_star n dt ν v_init u_prev v_prev) p_prev),
   p_update n K dt ρ (u_star n dt ν u_init u_prev v_prev)
     (v_star n dt ν v_init u_prev v_prev) p_prev)

/-- The source's timestep loop: starting from
`u_prev, v_prev, p_prev = u_init, v_init, p_init`, run
`for i in range(TIMESTEPS): u_prev, v_prev, p_prev = iterator(...)`.
`T` is `TIMESTEPS` as an integer; `range` of a non-positive integer is
empty, hence the `Int.toNat`. -/
def runDriver (n K : ℕ) (dt ν ρ : ℚ) (u_init v_init p_init : ScalarField)
    (T : ℤ) : ScalarField × ScalarField × ScalarField :=
  (fun s => iterator n K dt ν ρ u_init v_init s.1 s.2.1 s.2.2)^[T.toNat]
    (u_init, v_init, p_init)

/-- The error surface of the source script: the notebook defines no
`ConfigurationError` and validates none of `N_POINTS`, `dt`,
`JACOBI_ITERATIONS` or `TIMESTEPS`, so every configuration runs the loop and
returns its final state normally (the only abort mechanism in the source,
`jax_debug_nans`, concerns non-finite values, not configuration). -/
def runExcept (n K : ℕ) (dt ν ρ : ℚ) (u_init v_init p_init : ScalarField)
    (T : ℤ) : Except String (ScalarField × ScalarField × ScalarField) :=
  Except.ok (runDriver n K dt ν ρ u_init v_init p_init T)

/-- Concrete test field: all zeroes. -/
def zf : ScalarField := fun _ _ => 0

/-- Concrete test field: `12` at entry `(1, 2)`, zero elsewhere. -/
def pX : ScalarField := fun i j => if i = 1 ∧ j = 2 then 12 else 0

/-- Concrete test field: `7` at entry `(1, 3)`, zero elsewhere — its last
column and last row differ on a 4 x 4 grid. -/
def gT : ScalarField := fun i j => if i = 1 ∧ j = 3 then 7 else 0

/-- Concrete test field used as an initial condition: `i + 2 j`. -/
def u0c : ScalarField := fun i j => (i : ℚ) + 2 * (j : ℚ)

/-- Concrete test field used as an initial condition: `3 i - j`. -/
def v0c : ScalarField := fun i j => 3 * (i : ℚ) - (j : ℚ)

lemma iterator_fst (n K : ℕ) (dt ν ρ : ℚ) (u0 v0 u v p : ScalarField) :
    (iterator n K dt ν ρ u0 v0 u v p).1
      = setEdges n u0 (u_update n dt ρ (u_star n dt ν u0 u v) p) := rfl

lemma iterator_snd (n K : ℕ) (dt ν ρ : ℚ) (u0 v0 u v p : ScalarField) :
    (iterator n K dt ν ρ u0 v0 u v p).2.1
      = setEdges n v0 (v_update n dt ρ (v_star n dt ν v0 u v) p) := rfl

lemma setEdges_apply_boundary (n : ℕ) (g f : ScalarField) (i j : ℕ)
    (hi : i < n) (hj : j < n) (hb : i = 0 ∨ i = n - 1 ∨ j = 0 ∨ j = n - 1) :
    setEdges n g f i j = g i j := by
  simp only [setEdges]
  split_ifs with h1 h2 h3 h4
  · rw [h1]
  · rw [h2]
  · rw [h3]
  · rw [h4]
  · exfalso; omega

lemma setEdges_apply_interior (n : ℕ) (g f : ScalarField) (i j : ℕ)
    (hi0 : i ≠ 0) (hi1 : i ≠ n - 1) (hj0 : j ≠ 0) (hj1 : j ≠ n - 1) :
    setEdges n g f i j = f i j := by
  simp only [setEdges]
  rw [if_neg hi1, if_neg hj1, if_neg hj0, if_neg hi0]

lemma d_dx_apply_interior (n : ℕ) (f : ScalarField) (i j : ℕ)
    (h : 1 ≤ i ∧ i + 1 < n ∧ 1 ≤ j ∧ j + 1 < n) :
    d_dx n f i j = (f i (j + 1) - f i (j - 1)) / (2 * ELEMENT_LENGTH n) := by
  simp only [d_dx]
  rw [if_pos h]

lemma d_dy_apply_interior (n : ℕ) (f : ScalarField) (i j : ℕ)
    (h : 1 ≤ i ∧ i + 1 < n ∧ 1 ≤ j ∧ j + 1 < n) :
    d_dy n f i j = (f (i + 1) j - f (i - 1) j) / (2 * ELEMENT_LENGTH n) := by
  simp only [d_dy]
  rw [if_pos h]

lemma p_update_succ (n K : ℕ) (dt ρ : ℚ) (u v p : ScalarField) :
    p_update n (K + 1) dt ρ u v p = p_sweep n (p_rhs n dt ρ u v) p := by
  simp only [p_update, Function.iterate_succ_apply', p_loopBody]

lemma p_sweep_last_row (n : ℕ) (rhs p : ScalarField) (j : ℕ) :
    p_sweep n rhs p (n - 1) j = 0 := by
  simp only [p_sweep]
  split_ifs <;> first | rfl | (exfalso; omega)

/-- C1: the claim says the pressure solver performs `K` Jacobi sweeps with
sweep `k+1` reading the complete result of sweep `k`, so that for `K ≥ 2`
the result differs in general from a single sweep of `p_prev`.  The source's
loop never assigns `p_next` back to `p_prev`, so for every `K ≥ 1` the
returned field equals the single sweep of `p_prev` (first conjunct), while
the genuinely iterated solve (`p_update_iterated`, modelled from the spec)
gives a different value already at `K = 2` on a concrete input (second
conjunct). -/
theorem c1_jacobi_loop_never_accumulates :
    (∀ (n K : ℕ) (dt ρ : ℚ) (u v p : ScalarField), 1 ≤ K → ∀ i j,
        p_update n K dt ρ u v p i j = p_update n 1 dt ρ u v p i j) ∧
      p_update_iterated 4 2 1 1 zf zf pX 1 1 ≠ p_update 4 2 1 1 zf zf pX 1 1 := by
  constructor
  · intro n K dt ρ u v p hK i j
    obtain ⟨m, rfl⟩ : ∃ m, K = m + 1 := ⟨K - 1, by omega⟩
    rw [p_update_succ]
    rfl
  · have h1 : p_update_iterated 4 2 1 1 zf zf pX 1 1 = 3 / 2 := by
      with_unfolding_all rfl
    have h2 : p_update 4 2 1 1 zf zf pX 1 1 = 3 := by
      with_unfolding_all rfl
    rw [h1, h2]
    norm_num

theorem c1_jacobi_loop_never_accumulates_witness :
    (1 : ℕ) ≤ 2 ∧ p_update 4 2 1 1 zf zf pX 1 1 = p_update 4 1 1 1 zf zf pX 1 1 :=
  ⟨by decide, c1_jacobi_loop_never_accumulates.1 4 2 1 1 zf zf pX (by decide) 1 1⟩

/-- C2 (amended): in every timestep the corrector computes
`u_next = u* - (dt/ρ)·d_dx(p_prev)` and `v_next = v* - (dt/ρ)·d_dy(p_prev)`
from the pressure `p_prev` carried in from the previous timestep (the field
fed to the Jacobi solve), not from the current solve's output; stated at
interior cells, where the final edge overwrite does not interfere. -/
theorem c2_corrector_uses_previous_timestep_pressure (n K : ℕ) (dt ν ρ : ℚ)
    (u0 v0 u v p : ScalarField) (i j : ℕ)
    (h1 : 1 ≤ i) (h2 : i + 1 < n) (h3 : 1 ≤ j) (h4 : j + 1 < n) :
    (iterator n K dt ν ρ u0 v0 u v p).1 i j
        = u_star n dt ν u0 u v i j
          - dt / ρ * ((p i (j + 1) - p i (j - 1)) / (2 * ELEMENT_LENGTH n)) ∧
      (iterator n K dt ν ρ u0 v0 u v p).2.1 i j
        = v_star n dt ν v0 u v i j
          - dt / ρ * ((p (i + 1) j - p (i - 1) j) / (2 * ELEMENT_LENGTH n)) := by
  constructor
  · rw [iterator_fst,
      setEdges_apply_interior n u0 _ i j (by omega) (by omega) (by omega) (by omega)]
    simp only [u_update]
    rw [d_dx_apply_interior n p i j ⟨h1, h2, h3, h4⟩]
  · rw [iterator_snd,
      setEdges_apply_interior n v0 _ i j (by omega) (by omega) (by omega) (by omega)]
    simp only [v_update]
    rw [d_dy_apply_interior n p i j ⟨h1, h2, h3, h4⟩]

theorem c2_corrector_uses_previous_timestep_pressure_witness :
    ((1 : ℕ) ≤ 1 ∧ 1 + 1 < 4) ∧
      ((iterator 4 1 1 1 1 zf zf zf zf pX).1 1 1
          = u_star 4 1 1 zf zf zf 1 1
            - 1 / 1 * ((pX 1 2 - pX 1 0) / (2 * ELEMENT_LENGTH 4)) ∧
        (iterator 4 1 1 1 1 zf zf zf zf pX).2.1 1 1
          = v_star 4 1 1 zf zf zf 1 1
            - 1 / 1 * ((pX 2 1 - pX 0 1) / (2 * ELEMENT_LENGTH 4))) :=
  ⟨⟨by decide, by decide⟩,
    c2_corrector_uses_previous_timestep_pressure 4 1 1 1 1 zf zf zf zf pX 1 1
      (by decide) (by decide) (by decide) (by decide)⟩

/-- C2 counterexample: on a concrete input the returned `u` component does
NOT equal `u* - (dt/ρ)·d_dx(p)` for `p` the pressure returned by the current
timestep's Jacobi solve (the third component of the iterator's result): the
code's value at the interior cell `(1,1)` is `-18`, the claimed formula
gives `9/2`. -/
theorem c2_corrector_not_fresh_pressure_counterexample :
    (iterator 4 1 1 1 1 zf zf zf zf pX).1 1 1
      ≠ u_star 4 1 1 zf zf zf 1 1
        - 1 / 1 * d_dx 4 ((iterator 4 1 1 1 1 zf zf zf zf pX).2.2) 1 1 := by
  have h1 : (iterator 4 1 1 1 1 zf zf zf zf pX).1 1 1 = -18 := by
    with_unfolding_all rfl
  have h2 : u_star 4 1 1 zf zf zf 1 1
      - 1 / 1 * d_dx 4 ((iterator 4 1 1 1 1 zf zf zf zf pX).2.2) 1 1 = 9 / 2 := by
    with_unfolding_all rfl
  rw [h1, h2]
  norm_num

/-- C3: the claim says that after every sweep's boundary pass all four
pressure edges equal their adjacent interior neighbours.  The source's last
boundary write is `p_next[-1,:] = p_next[-1,:]` (a self-assignment), so the
last row keeps its `jnp.zeros_like` value `0`: on a concrete input the
returned pressure has `p[3][2] = 0` while its interior neighbour
`p[2][2] = 3`, violating `p[N-1,:] = p[N-2,:]`. -/
theorem c3_last_row_not_neumann_eval :
    p_update 4 1 1 1 zf zf pX 3 2 = 0 ∧ p_update 4 1 1 1 zf zf pX 2 2 = 3 :=
  ⟨by with_unfolding_all rfl, by with_unfolding_all rfl⟩

/-- C4: the claim says every edge of the intermediate `u*` is overwritten
with the matching edge of `u0`, never a transposed edge.  The source's
post-predictor block writes `u_i.at[-1, :].set(u_init[:, -1])` — the last
row of `u*` receives the last COLUMN of `u0`.  On a concrete input with
`u0[1][3] = 7` and `u0[3][1] = 0`, the enforced `u*` has `u*[3][1] = 7`
(the transposed edge value) instead of the matching edge value `0`. -/
theorem c4_transposed_edge_eval :
    u_star 4 1 1 gT zf zf 3 1 = 7 ∧ gT 3 1 = 0 := by
  decide

/-- C5: for every timestep count `T ≥ 1` and any configuration and initial
conditions, the state returned by the driver agrees exactly with `u0`/`v0`
on every boundary cell, because the final edge blocks of the iterator
overwrite all four edges of `u_next` and `v_next` from the initial
conditions. -/
theorem c5_velocity_boundary_invariant (n K : ℕ) (dt ν ρ : ℚ)
    (u0 v0 p0 : ScalarField) (T : ℤ) (i j : ℕ)
    (hT : 1 ≤ T) (hi : i < n) (hj : j < n)
    (hb : i = 0 ∨ i = n - 1 ∨ j = 0 ∨ j = n - 1) :
    (runDriver n K dt ν ρ u0 v0 p0 T).1 i j = u0 i j ∧
      (runDriver n K dt ν ρ u0 v0 p0 T).2.1 i j = v0 i j := by
  obtain ⟨m, hm⟩ : ∃ m, T.toNat = m + 1 := ⟨T.toNat - 1, by omega⟩
  unfold runDriver
  rw [hm, Function.iterate_succ_apply']
  constructor
  · rw [iterator_fst]
    exact setEdges_apply_boundary n u0 _ i j hi hj hb
  · rw [iterator_snd]
    exact setEdges_apply_boundary n v0 _ i j hi hj hb

theorem c5_velocity_boundary_invariant_witness :
    ((1 : ℤ) ≤ 1 ∧ (0 : ℕ) < 3) ∧
      ((runDriver 3 1 1 1 1 u0c v0c pX 1).1 0 0 = u0c 0 0 ∧
        (runDriver 3 1 1 1 1 u0c v0c pX 1).2.1 0 0 = v0c 0 0) :=
  ⟨⟨by decide, by decide⟩,
    c5_velocity_boundary_invariant 3 1 1 1 1 u0c v0c pX 1 0 0
      (by decide) (by decide) (by decide) (Or.inl rfl)⟩

/-- C6: each differential operator is exactly zero on the boundary rows and
columns, equals the stated centered difference at interior cells, and the
Laplacian is the pointwise sum `d2_dx2 + d2_dy2`.  (The operators are pure
functions of `f` in this embedding; the source likewise writes into a fresh
`jnp.zeros_like` buffer and never mutates its argument.) -/
theorem c6_differential_operators (n : ℕ) (f : ScalarField) (i j : ℕ)
    (hi : i < n) (hj : j < n) :
    ((i = 0 ∨ i = n - 1 ∨ j = 0 ∨ j = n - 1) →
        d_dx n f i j = 0 ∧ d_dy n f i j = 0 ∧ d2_dx2 n f i j = 0 ∧
          d2_dy2 n f i j = 0 ∧ laplacian n f i j = 0) ∧
      ((1 ≤ i ∧ i ≤ n - 2 ∧ 1 ≤ j ∧ j ≤ n - 2) →
        d_dx n f i j = (f i (j + 1) - f i (j - 1)) / (2 * ELEMENT_LENGTH n) ∧
          d_dy n f i j = (f (i + 1) j - f (i - 1) j) / (2 * ELEMENT_LENGTH n) ∧
          d2_dx2 n f i j
            = (f i (j + 1) - 2 * f i j + f i (j - 1)) / (ELEMENT_LENGTH n ^ 2) ∧
          d2_dy2 n f i j
            = (f (i + 1) j - 2 * f i j + f (i - 1) j) / (ELEMENT_LENGTH n ^ 2)) ∧
      laplacian n f i j = d2_dx2 n f i j + d2_dy2 n f i j := by
  refine ⟨fun hb => ?_, fun hint => ?_, rfl⟩
  · have hcond : ¬(1 ≤ i ∧ i + 1 < n ∧ 1 ≤ j ∧ j + 1 < n) := by omega
    simp only [d_dx, d_dy, d2_dx2, d2_dy2, laplacian, if_neg hcond]
    norm_num
  · have hcond : 1 ≤ i ∧ i + 1 < n ∧ 1 ≤ j ∧ j + 1 < n := by omega
    refine ⟨d_dx_apply_interior n f i j hcond, d_dy_apply_interior n f i j hcond,
      ?_, ?_⟩
    · simp only [d2_dx2]
      rw [if_pos hcond]
    · simp only [d2_dy2]
      rw [if_pos hcond]

theorem c6_differential_operators_witness :
    ((2 : ℕ) < 5 ∧ (2 : ℕ) < 5) ∧
      (((2 : ℕ) = 0 ∨ (2 : ℕ) = 5 - 1 ∨ (2 : ℕ) = 0 ∨ (2 : ℕ) = 5 - 1) →
          d_dx 5 u0c 2 2 = 0 ∧ d_dy 5 u0c 2 2 = 0 ∧ d2_dx2 5 u0c 2 2 = 0 ∧
            d2_dy2 5 u0c 2 2 = 0 ∧ laplacian 5 u0c 2 2 = 0) ∧
        ((1 ≤ (2 : ℕ) ∧ (2 : ℕ) ≤ 5 - 2 ∧ 1 ≤ (2 : ℕ) ∧ (2 : ℕ) ≤ 5 - 2) →
          d_dx 5 u0c 2 2 = (u0c 2 3 - u0c 2 1) / (2 * ELEMENT_LENGTH 5) ∧
            d_dy 5 u0c 2 2 = (u0c 3 2 - u0c 1 2) / (2 * ELEMENT_LENGTH 5) ∧
            d2_dx2 5 u0c 2 2
              = (u0c 2 3 - 2 * u0c 2 2 + u0c 2 1) / (ELEMENT_LENGTH 5 ^ 2) ∧
            d2_dy2 5 u0c 2 2
              = (u0c 3 2 - 2 * u0c 2 2 + u0c 1 2) / (ELEMENT_LENGTH 5 ^ 2)) ∧
        laplacian 5 u0c 2 2 = d2_dx2 5 u0c 2 2 + d2_dy2 5 u0c 2 2 :=
  ⟨⟨by decide, by decide⟩, c6_differential_operators 5 u0c 2 2 (by decide) (by decide)⟩

/-- C7: the predictor returns exactly
`u* = u - dt·(u·d_dx(u) + v·d_dy(u)) + dt·ν·laplacian(u)` and
`v* = v - dt·(u·d_dx(v) + v·d_dy(v)) + dt·ν·laplacian(v)`, all products
element-wise, at every cell. -/
theorem c7_predictor_formula (n : ℕ) (dt ν : ℚ) (u v : ScalarField) (i j : ℕ) :
    u_intermediate n dt ν u v i j
        = u i j - dt * (u i j * d_dx n u i j + v i j * d_dy n u i j)
          + dt * ν * laplacian n u i j ∧
      v_intermediate n dt ν u v i j
        = v i j - dt * (u i j * d_dx n v i j + v i j * d_dy n v i j)
          + dt * ν * laplacian n v i j :=
  ⟨rfl, rfl⟩

/-- C8: for every input velocity pair and previous pressure and every
configured iteration count `K ≥ 1`, the pressure field returned by
`p_update` is exactly zero on its entire last row: the sweep writes zeroes
there (`jnp.zeros_like`), no interior update touches row `N-1`, the
column writes copy zeroes into its two end cells, and the source's final
boundary write assigns the last row to itself. -/
theorem c8_pressure_last_row_zero (n K : ℕ) (dt ρ : ℚ) (u v p : ScalarField)
    (j : ℕ) (hK : 1 ≤ K) (_hj : j < n) :
    p_update n K dt ρ u v p (n - 1) j = 0 := by
  obtain ⟨m, rfl⟩ : ∃ m, K = m + 1 := ⟨K - 1, by omega⟩
  rw [p_update_succ]
  exact p_sweep_last_row n (p_rhs n dt ρ u v) p j

theorem c8_pressure_last_row_zero_witness :
    ((1 : ℕ) ≤ 2 ∧ (1 : ℕ) < 4) ∧ p_update 4 2 1 1 zf zf pX 3 1 = 0 :=
  ⟨⟨by decide, by decide⟩,
    c8_pressure_last_row_zero 4 2 1 1 zf zf pX 1 (by decide) (by decide)⟩

/-- C9 counterexample: a configuration with non-positive `TIMESTEPS`
(`T = -3`) is not rejected: the script's run completes normally and returns
the initial state (there is no `ConfigurationError` in the source). -/
theorem c9_nonpositive_timesteps_not_rejected_counterexample :
    runExcept 4 500 (1 / 100000) (1 / 10) 1 zf zf pX (-3)
      = Except.ok (zf, zf, pX) := rfl

/-- C9 (amended): the system performs no configuration validation: for any
non-positive total timestep count `T` the run is accepted, executes zero
timesteps and returns `(u0, v0, p0)` unchanged with no error; no
`ConfigurationError` (nor any validation of `N`, `dt` or `K`) exists in the
code. -/
theorem c9_no_configuration_rejection (n K : ℕ) (dt ν ρ : ℚ)
    (u0 v0 p0 : ScalarField) (T : ℤ) (hT : T ≤ 0) :
    runExcept n K dt ν ρ u0 v0 p0 T = Except.ok (u0, v0, p0) := by
  unfold runExcept runDriver
  rw [Int.toNat_of_nonpos hT]
  rfl

theorem c9_no_configuration_rejection_witness :
    (-2 : ℤ) ≤ 0 ∧
      runExcept 3 1 1 1 1 u0c v0c pX (-2) = Except.ok (u0c, v0c, pX) :=
  ⟨by decide, c9_no_configuration_rejection 3 1 1 1 1 u0c v0c pX (-2) (by decide)⟩

/-- C10: running the time-stepping driver with total timestep count `T = 0`
returns the initial state `(u0, v0, p0)` unchanged, for every configuration
and initial state. -/
theorem c10_zero_timesteps_identity (n K : ℕ) (dt ν ρ : ℚ)
    (u0 v0 p0 : ScalarField) :
    runDriver n K dt ν ρ u0 v0 p0 0 = (u0, v0, p0) := rfl
